import Mathlib

/-!
# Verification of the secureio atomic-write engine

A shallow embedding of `secureio.go` (package secureio): the dispatcher
`secureAtomicWriteInternal`, the error classifier `fallbackNeeded`, the
ancestor verifier `verifyDirectorySecure`, the hardened directory opener
`openDirSecure`, and the two write strategies `ultraParanoidWrite`
(anonymous temp file published by linkat) and `paranoidAtomicWrite`
(named temp file published by renameat).

System calls are modelled by an oracle environment `Env` (each oracle
fixes the outcome of one kernel facility) together with an explicit
state `FS` recording the entries of the target directory, the content
written to the anonymous temp file, a write-attempt counter driving the
short-write oracle, and the trace of `close` calls (needed to reason
about descriptor discipline).  Go's `error` values are modelled by
`GoError`, with `GoError.wrap` standing for `fmt.Errorf("...: %w", err)`
and `GoError.msg` for an error without a wrapped cause; `errors.As`
unwrapping to a `unix.Errno` is `errorsAsErrno`.
-/

namespace Secureio

deriving instance DecidableEq for Except

/-- The errno values relevant to the engine's control flow. -/
inductive Errno where
  | EOPNOTSUPP | EINVAL | ENOTDIR | EPERM
  | ENOSYS | EEXIST | ENOENT | EXDEV | ELOOP | EACCES | ENOSPC | EBADF
  deriving DecidableEq, Repr

/-- Go `error` values as produced by this package: a bare `unix.Errno`,
a `fmt.Errorf("...: %w", inner)` wrapper, or a message-only error
(`fmt.Errorf` without `%w`). -/
inductive GoError where
  | errno (e : Errno)
  | wrap (msg : String) (inner : GoError)
  | msg (s : String)
  deriving DecidableEq, Repr

/-- `errors.As(err, &errno)` for a `unix.Errno` target: walk the
`Unwrap` chain and return the first errno found. -/
def errorsAsErrno : GoError → Option Errno
  | .errno e => some e
  | .wrap _ inner => errorsAsErrno inner
  | .msg _ => none

/-- `errors.Is(err, target)` for an errno target. -/
def errorsIsErrno (err : GoError) (target : Errno) : Bool :=
  match errorsAsErrno err with
  | some e => e == target
  | none => false

/-- Specification-side predicate: the error is, or (transitively)
wraps, the given errno. -/
inductive WrapsErrno : GoError → Errno → Prop
  | base (e : Errno) : WrapsErrno (.errno e) e
  | step (m : String) (inner : GoError) (e : Errno) :
      WrapsErrno inner e → WrapsErrno (.wrap m inner) e

/-! ## Path arithmetic: Go's `path.Clean`, `filepath.Dir`, `filepath.Base`

On Unix, `filepath.Clean = path.Clean`.  `Clean` is specified by the
four rewriting rules of its documentation (collapse multiple slashes,
drop `.` elements, drop `<elem>/..` pairs, drop a leading `..` of a
rooted path; return `.` for an empty result), implemented here with the
standard component stack. -/

/-- Split a character list on `'/'` (the semantics of
`strings.Split(s, "/")`): `"a/b"` gives `["a","b"]`, a leading or
trailing slash gives an empty component. -/
def splitSlash : List Char → List (List Char)
  | [] => [[]]
  | c :: rest =>
    match splitSlash rest with
    | [] => [[]]
    | grp :: groups =>
      if c = '/' then [] :: grp :: groups else (c :: grp) :: groups

/-- Join components with `'/'` (the semantics of
`strings.Join(groups, "/")`). -/
def joinSlash : List (List Char) → List Char
  | [] => []
  | [g] => g
  | g :: gs => g ++ '/' :: joinSlash gs

/-- Process the slash-separated components of a path against a stack
(held in reverse order: head is the deepest component). -/
def cleanStack (rooted : Bool) : List (List Char) → List (List Char) → List (List Char)
  | st, [] => st
  | st, c :: rest =>
    if c = ([] : List Char) ∨ c = ['.'] then cleanStack rooted st rest
    else if c = ['.', '.'] then
      match st with
      | [] => cleanStack rooted (if rooted then [] else [['.', '.']]) rest
      | top :: below =>
        if top = ['.', '.'] then cleanStack rooted (c :: top :: below) rest
        else cleanStack rooted below rest
    else cleanStack rooted (c :: st) rest

/-- Go `path.Clean` on character lists. -/
def pathCleanL (cs : List Char) : List Char :=
  if cs = [] then ['.'] else
  let rooted := cs.head? = some '/'
  let body := joinSlash (cleanStack rooted [] (splitSlash cs)).reverse
  if rooted then (if body = [] then ['/'] else '/' :: body)
  else (if body = [] then ['.'] else body)

/-- Go `path.Clean` (equal to `filepath.Clean` on Unix). -/
def pathClean (p : String) : String := String.mk (pathCleanL p.toList)

/-- Go `filepath.Dir` on Unix: `Clean` of the prefix up to and
including the last slash (`Clean("")` = `"."` when there is none). -/
def pathDir (p : String) : String :=
  let pre : List Char := (p.toList.reverse.dropWhile (fun c => c ≠ '/')).reverse
  String.mk (pathCleanL pre)

/-- Go `filepath.Base` on Unix: strip trailing slashes, then take the
suffix after the last remaining slash; `"."` for the empty path and
`"/"` for an all-slash path. -/
def pathBase (p : String) : String :=
  if p = "" then "." else
  let stripped : List Char := (p.toList.reverse.dropWhile (fun c => c = '/')).reverse
  let name : List Char := (stripped.reverse.takeWhile (fun c => c ≠ '/')).reverse
  if name = [] then "/" else String.mk name

/-! ## The oracle environment and the filesystem state -/

/-- Linux `openat2` resolve flags (include/uapi/linux/openat2.h). -/
def RESOLVE_NO_XDEV : Nat := 0x01

def RESOLVE_NO_MAGICLINKS : Nat := 0x02

def RESOLVE_NO_SYMLINKS : Nat := 0x04

/-- `S_IWOTH`: mode bit "writable by others". -/
def S_IWOTH : Nat := 0o2

/-- `S_ISVTX`: the sticky bit. -/
def S_ISVTX : Nat := 0o1000

/-- The `unix.Stat_t` fields read by the verifier. -/
structure Stat where
  uid : Nat
  mode : Nat
  deriving DecidableEq, Repr

/-- Outcomes of the kernel facilities the engine invokes.  Each field
fixes the result of one syscall; syscalls whose success depends on the
directory contents (`openat` with `O_EXCL`, `linkat`, `renameat`) are
combined below with the `FS` state. -/
structure Env where
  /-- `unix.Openat2(AT_FDCWD, path, &OpenHow{Resolve: flags})`:
  the returned directory fd, or the errno (`ENOSYS` when the running
  kernel lacks the syscall). -/
  openat2 : String → Nat → Except Errno Nat
  /-- `unix.Open(path, O_RDONLY|O_DIRECTORY|O_NOFOLLOW, 0)`. -/
  openNofollow : String → Except Errno Nat
  /-- `unix.Fstat(fd, &stat)`. -/
  fstat : Nat → Except Errno Stat
  /-- `unix.Openat(dirFd, "", O_RDWR|O_TMPFILE, perm)`: the anonymous
  temp-file fd, or the errno when the facility is unavailable. -/
  tmpfileOpen : Except Errno Nat
  /-- `unix.Openat(dirFd, tmpName, O_WRONLY|O_CREAT|O_EXCL|O_NOFOLLOW,
  perm)` in the case where `tmpName` does not already exist (when it
  does, the kernel answers `EEXIST` independently of this oracle). -/
  exclOpen : Except Errno Nat
  /-- One raw `write(2)` on the temp fd: given the index of this write
  attempt within the call and the number of bytes handed to the
  kernel, the number of bytes accepted (a short write when fewer), or
  an errno.  (A count and an error are never returned together.) -/
  rawWrite : Nat → Nat → Except Errno Nat
  /-- `unix.Fsync(tmpFd)` / `tmpFile.Sync()`. -/
  fsyncErr : Option Errno
  /-- `unix.Fchown(tmpFd, uid, gid)`. -/
  fchownErr : Option Errno
  /-- `unix.Linkat(tmpFd, "", dirFd, baseName, AT_EMPTY_PATH)` in the
  case where `baseName` does not exist (when it does, the kernel
  answers `EEXIST`). -/
  linkatErr : Option Errno
  /-- `unix.Renameat(dirFd, tmpName, dirFd, baseName)` in the case
  where `tmpName` exists. -/
  renameatErr : Option Errno
  /-- `tmpFile.Close()` in the fallback strategy. -/
  closeTmpErr : Option Errno
  /-- `dirFile.Sync()`. -/
  dirSyncErr : Option Errno

/-- The state threaded through one call: the named entries of the
target directory (name, content), the content of the anonymous temp
file, the number of raw `write(2)` calls issued so far (the index fed
to the `rawWrite` oracle), and the trace of every `close` issued (the
fd number, in call order). -/
structure FS where
  files : List (String × List Nat)
  anon : List Nat
  attempts : Nat
  closes : List Nat
  deriving DecidableEq, Repr

def fsLookup (files : List (String × List Nat)) (name : String) : Option (List Nat) :=
  (files.find? (fun kv => kv.1 = name)).map (fun kv => kv.2)

/-- Replace the entry `name` (or append it) with the given content. -/
def fsSet (files : List (String × List Nat)) (name : String) (content : List Nat) :
    List (String × List Nat) :=
  if (fsLookup files name).isSome then
    files.map (fun kv => if kv.1 = name then (name, content) else kv)
  else files ++ [(name, content)]

/-- Remove the entry `name` if present (`unlinkat`; `ENOENT` is
ignored by every caller in the source). -/
def fsRemove (files : List (String × List Nat)) (name : String) :
    List (String × List Nat) :=
  files.filter (fun kv => kv.1 ≠ name)

/-- Append bytes to the content of entry `name`. -/
def fsAppend (files : List (String × List Nat)) (name : String) (bytes : List Nat) :
    List (String × List Nat) :=
  files.map (fun kv => if kv.1 = name then (kv.1, kv.2 ++ bytes) else kv)

/-- Record one `close(fd)` call in the trace. -/
def closeFd (fd : Nat) (fs : FS) : FS :=
  { fs with closes := fs.closes ++ [fd] }

/-- Model of a Go `*os.PathError` (as produced by `os.File` methods):
it carries an operation and a path and unwraps to the errno. -/
def pathError (op name : String) (e : Errno) : GoError :=
  .wrap (op ++ " " ++ name) (.errno e)

/-! ## The embedded source functions -/

/-- `WriteOptions` of the source (`Perm os.FileMode; UID, GID int;
Sync, VerifyAll, NoCrossDevice bool`). -/
structure WriteOptions where
  Perm : Nat
  UID : Int
  GID : Int
  Sync : Bool
  VerifyAll : Bool
  NoCrossDevice : Bool
  deriving DecidableEq, Repr

/-- The resolve-flag computation at the head of `openDirSecure`:
`RESOLVE_NO_SYMLINKS | RESOLVE_NO_MAGICLINKS`, plus `RESOLVE_NO_XDEV`
when `noCrossDevice`. -/
def resolveFlags (noCrossDevice : Bool) : Nat :=
  let base := RESOLVE_NO_SYMLINKS ||| RESOLVE_NO_MAGICLINKS
  if noCrossDevice then base ||| RESOLVE_NO_XDEV else base

/-- `openDirSecure(path, noCrossDevice)`: try `openat2`; on `ENOSYS`
(and only then) fall back to `open` with `O_NOFOLLOW`; any other
`openat2` error is returned as is. -/
def openDirSecure (env : Env) (path : String) (noCrossDevice : Bool) :
    Except GoError Nat :=
  match env.openat2 path (resolveFlags noCrossDevice) with
  | .ok fd => .ok fd
  | .error e =>
    if errorsIsErrno (.errno e) .ENOSYS then
      match env.openNofollow path with
      | .ok fd => .ok fd
      | .error e2 => .error (.errno e2)
    else .error (.errno e)

/-- `fallbackNeeded(err)`: `errors.As(err, &errno)` and membership of
the errno in `{EOPNOTSUPP, EINVAL, ENOTDIR, EPERM}`. -/
def fallbackNeeded : Option GoError → Bool
  | none => false
  | some err =>
    match errorsAsErrno err with
    | some e => e == .EOPNOTSUPP || e == .EINVAL || e == .ENOTDIR || e == .EPERM
    | none => false

/-- `verifyDirectorySecure(path, verifyAll)`.  The Go `for` loop has no
termination guard, so the model takes a fuel parameter; the outer
`none` means the loop ran longer than `fuel` iterations.  The inner
`Option GoError` is the Go return value (`none` for `nil`). -/
def verifyDirectorySecure (env : Env) :
    Nat → String → Bool → FS → Option (Option GoError × FS)
  | 0, _, _, _ => none
  | fuel + 1, current, verifyAll, fs =>
    match openDirSecure env current true with
    | .error err => some (some (.wrap ("open directory " ++ current) err), fs)
    | .ok fd =>
      match env.fstat fd with
      | .error e =>
        some (some (.wrap ("fstat directory " ++ current) (.errno e)), closeFd fd fs)
      | .ok st =>
        let fs := closeFd fd fs
        if st.uid ≠ 0 then
          some (some (.msg ("directory " ++ current ++ " not owned by root (uid=" ++
            toString st.uid ++ ")")), fs)
        else if st.mode &&& S_IWOTH ≠ 0 ∧ st.mode &&& S_ISVTX = 0 then
          some (some (.msg ("directory " ++ current ++
            " is world-writable without sticky bit")), fs)
        else if verifyAll = false ∨ current = "/" then
          some (none, fs)
        else
          verifyDirectorySecure env fuel (pathDir current) verifyAll fs

/-- The internal write loop of `os.File.Write` (`poll.FD.Write`):
repeat raw `write(2)` calls, accumulating, until the payload is
exhausted; a raw error is returned; a raw result of zero bytes with no
error is `io.ErrUnexpectedEOF`.  Returns the error (`none` on full
success) with the state; successfully accepted bytes are appended to
the named entry even when a later attempt fails. -/
def fileWriteGo (w : Nat → Nat → Except Errno Nat) (name : String) :
    Nat → List Nat → FS → Option GoError × FS
  | _, [], fs => (none, fs)
  | 0, _ :: _, fs => (some (.msg "unexpected EOF"), fs)
  | fuel + 1, remaining, fs =>
    match w fs.attempts remaining.length with
    | .error e => (some (.errno e), { fs with attempts := fs.attempts + 1 })
    | .ok n0 =>
      let n := min n0 remaining.length
      let fs2 : FS := { fs with files := fsAppend fs.files name (remaining.take n),
                                attempts := fs.attempts + 1 }
      if n = 0 then (some (.msg "unexpected EOF"), fs2)
      else fileWriteGo w name fuel (remaining.drop n) fs2

/-- Entry into the loop: since every iteration either returns or
consumes at least one byte, `remaining.length` bounds the number of
iterations, so the fuel `data.length` makes the `0, _ :: _` case of
`fileWriteGo` unreachable. -/
def fileWriteLoop (w : Nat → Nat → Except Errno Nat) (name : String)
    (data : List Nat) (fs : FS) : Option GoError × FS :=
  fileWriteGo w name data.length data fs

/-- `ultraParanoidWrite(path, data, opts)`: the anonymous-temp
(`O_TMPFILE` + `linkat`) strategy.  Deferred closes are expanded on
every exit path in LIFO order, as the Go runtime executes them. -/
def ultraParanoidWrite (env : Env) (fuel : Nat) (path : String) (data : List Nat)
    (opts : WriteOptions) (fs : FS) : Option (Option GoError × FS) :=
  let dirPath := pathDir path
  let baseName := pathBase path
  match (if opts.VerifyAll then verifyDirectorySecure env fuel dirPath true fs
         else some (none, fs)) with
  | none => none
  | some (some e, fs) => some (some e, fs)
  | some (none, fs) =>
    match openDirSecure env dirPath opts.NoCrossDevice with
    | .error err => some (some (.wrap "open directory secure" err), fs)
    | .ok dirFd =>
      -- defer unix.Close(dirFd)                                       [D1]
      match env.tmpfileOpen with
      | .error e =>
        some (some (.wrap "openat O_TMPFILE" (.errno e)), closeFd dirFd fs)
      | .ok tmpFd =>
        -- defer unix.Close(tmpFd)                                     [D2]
        let fs : FS := { fs with anon := [] }
        -- unix.Write(tmpFd, data): one raw write; the byte count is
        -- discarded by the source (`if _, err := ...`).
        match env.rawWrite fs.attempts data.length with
        | .error e =>
          some (some (.wrap "write temp file" (.errno e)),
            closeFd dirFd (closeFd tmpFd { fs with attempts := fs.attempts + 1 }))
        | .ok n0 =>
          let n := min n0 data.length
          let fs : FS := { fs with anon := fs.anon ++ data.take n,
                                   attempts := fs.attempts + 1 }
          match (if opts.Sync then env.fsyncErr.map
                   (fun e => GoError.wrap "fsync temp file" (.errno e))
                 else none) with
          | some e => some (some e, closeFd dirFd (closeFd tmpFd fs))
          | none =>
            match (if 0 ≤ opts.UID ∨ 0 ≤ opts.GID then env.fchownErr.map
                     (fun e => GoError.wrap "fchown temp file" (.errno e))
                   else none) with
            | some e => some (some e, closeFd dirFd (closeFd tmpFd fs))
            | none =>
              -- unix.Unlinkat(dirFd, baseName, 0): result ignored
              let fs : FS := { fs with files := fsRemove fs.files baseName }
              -- unix.Linkat(tmpFd, "", dirFd, baseName, AT_EMPTY_PATH)
              match (if (fsLookup fs.files baseName).isSome then some Errno.EEXIST
                     else env.linkatErr) with
              | some e =>
                some (some (.wrap "linkat temp file" (.errno e)),
                  closeFd dirFd (closeFd tmpFd fs))
              | none =>
                let fs : FS := { fs with files := fsSet fs.files baseName fs.anon }
                if opts.Sync then
                  -- dirFile := os.NewFile(dirFd, dirPath); defer dirFile.Close() [D3]
                  match env.dirSyncErr with
                  | some e =>
                    some (some (.wrap "sync directory" (pathError "sync" dirPath e)),
                      closeFd dirFd (closeFd tmpFd (closeFd dirFd fs)))
                  | none =>
                    some (none, closeFd dirFd (closeFd tmpFd (closeFd dirFd fs)))
                else
                  some (none, closeFd dirFd (closeFd tmpFd fs))

/-- The deferred cleanup of the fallback strategy:
`unix.Close(tmpFd); unix.Unlinkat(dirFd, tmpName, 0)`           [D2]. -/
def deferTmpCleanup (tmpFd : Nat) (tmpName : String) (fs : FS) : FS :=
  let fs := closeFd tmpFd fs
  { fs with files := fsRemove fs.files tmpName }

/-- `paranoidAtomicWrite(path, data, opts)`: the named-temp
(`O_CREAT|O_EXCL` + `renameat`) strategy, deferred calls expanded on
every exit path in LIFO order. -/
def paranoidAtomicWrite (env : Env) (fuel : Nat) (path : String) (data : List Nat)
    (opts : WriteOptions) (fs : FS) : Option (Option GoError × FS) :=
  let dirPath := pathDir path
  let baseName := pathBase path
  let tmpName := "." ++ baseName ++ ".tmp"
  match (if opts.VerifyAll then verifyDirectorySecure env fuel dirPath true fs
         else some (none, fs)) with
  | none => none
  | some (some e, fs) => some (some e, fs)
  | some (none, fs) =>
    match openDirSecure env dirPath opts.NoCrossDevice with
    | .error err => some (some (.wrap "open directory secure" err), fs)
    | .ok dirFd =>
      -- defer unix.Close(dirFd)                                       [D1]
      match (if (fsLookup fs.files tmpName).isSome then Except.error Errno.EEXIST
             else env.exclOpen) with
      | .error e =>
        some (some (.wrap "openat temp file" (.errno e)), closeFd dirFd fs)
      | .ok tmpFd =>
        -- defer { unix.Close(tmpFd); unix.Unlinkat(dirFd, tmpName, 0) } [D2]
        let fs : FS := { fs with files := fsSet fs.files tmpName [] }
        -- tmpFile := os.NewFile(tmpFd, tmpName); tmpFile.Write(data)
        match fileWriteLoop env.rawWrite tmpName data fs with
        | (some e, fs) =>
          some (some (.wrap "write temp file" (.wrap ("write " ++ tmpName) e)),
            closeFd dirFd (deferTmpCleanup tmpFd tmpName fs))
        | (none, fs) =>
          match (if opts.Sync then env.fsyncErr.map
                   (fun e => GoError.wrap "fsync temp file" (pathError "sync" tmpName e))
                 else none) with
          | some e => some (some e, closeFd dirFd (deferTmpCleanup tmpFd tmpName fs))
          | none =>
            match (if 0 ≤ opts.UID ∨ 0 ≤ opts.GID then env.fchownErr.map
                     (fun e => GoError.wrap "fchown temp file" (.errno e))
                   else none) with
            | some e => some (some e, closeFd dirFd (deferTmpCleanup tmpFd tmpName fs))
            | none =>
              -- tmpFile.Close()
              let fs := closeFd tmpFd fs
              match env.closeTmpErr with
              | some e =>
                some (some (.wrap "close temp file" (pathError "close" tmpName e)),
                  closeFd dirFd (deferTmpCleanup tmpFd tmpName fs))
              | none =>
                -- unix.Unlinkat(dirFd, baseName, 0): result ignored
                let fs : FS := { fs with files := fsRemove fs.files baseName }
                -- unix.Renameat(dirFd, tmpName, dirFd, baseName)
                match (if (fsLookup fs.files tmpName).isSome then env.renameatErr
                       else some Errno.ENOENT) with
                | some e =>
                  some (some (.wrap "rename temp file" (.errno e)),
                    closeFd dirFd (deferTmpCleanup tmpFd tmpName fs))
                | none =>
                  let content := (fsLookup fs.files tmpName).getD []
                  let fs : FS :=
                    { fs with files := fsSet (fsRemove fs.files tmpName) baseName content }
                  if opts.Sync then
                    -- dirFile := os.NewFile(dirFd, dirPath); defer dirFile.Close() [D3]
                    match env.dirSyncErr with
                    | some e =>
                      some (some (.wrap "sync directory" (pathError "sync" dirPath e)),
                        closeFd dirFd (deferTmpCleanup tmpFd tmpName (closeFd dirFd fs)))
                    | none =>
                      some (none, closeFd dirFd (deferTmpCleanup tmpFd tmpName (closeFd dirFd fs)))
                  else
                    some (none, closeFd dirFd (deferTmpCleanup tmpFd tmpName fs))

/-- `secureAtomicWriteInternal(path, data, opts)`: the dispatcher. -/
def secureAtomicWriteInternal (env : Env) (fuel : Nat) (path : String)
    (data : List Nat) (opts : WriteOptions) (fs : FS) : Option (Option GoError × FS) :=
  match ultraParanoidWrite env fuel path data opts fs with
  | none => none
  | some (err, fs1) =>
    if fallbackNeeded err then paranoidAtomicWrite env fuel path data opts fs1
    else some (err, fs1)

/-- `SecureAtomicWrite(path, data, perm)`. -/
def SecureAtomicWrite (env : Env) (fuel : Nat) (path : String) (data : List Nat)
    (perm : Nat) (fs : FS) : Option (Option GoError × FS) :=
  secureAtomicWriteInternal env fuel path data
    { Perm := perm, UID := -1, GID := -1, Sync := true, VerifyAll := false,
      NoCrossDevice := true } fs

/-- `SecureAtomicWriteRoot(path, data, perm)`. -/
def SecureAtomicWriteRoot (env : Env) (fuel : Nat) (path : String) (data : List Nat)
    (perm : Nat) (fs : FS) : Option (Option GoError × FS) :=
  secureAtomicWriteInternal env fuel path data
    { Perm := perm, UID := -1, GID := -1, Sync := true, VerifyAll := false,
      NoCrossDevice := true } fs

/-- `SecureAtomicWriteRootStrict(path, data, perm)`. -/
def SecureAtomicWriteRootStrict (env : Env) (fuel : Nat) (path : String)
    (data : List Nat) (perm : Nat) (fs : FS) : Option (Option GoError × FS) :=
  secureAtomicWriteInternal env fuel path data
    { Perm := perm, UID := -1, GID := -1, Sync := true, VerifyAll := true,
      NoCrossDevice := true } fs

/-- `SecureAtomicWriteWithOptions(path, data, opts)`. -/
def SecureAtomicWriteWithOptions (env : Env) (fuel : Nat) (path : String)
    (data : List Nat) (opts : WriteOptions) (fs : FS) : Option (Option GoError × FS) :=
  secureAtomicWriteInternal env fuel path data opts fs

/-! ## Concrete environments and fixtures used by the theorems -/

/-- An empty target directory, no prior writes, no prior closes. -/
def fs0 : FS := { files := [], anon := [], attempts := 0, closes := [] }

/-- The target directory already holds a stray leftover temp file
`.f.tmp` with partial content (the crash-recovery scenario of the
spec's §8). -/
def fsStray : FS := { files := [(".f.tmp", [9, 9])], anon := [], attempts := 0, closes := [] }

/-- The options every default entry point builds. -/
def optsDefault : WriteOptions :=
  { Perm := 0o600, UID := -1, GID := -1, Sync := true, VerifyAll := false,
    NoCrossDevice := true }

/-- `optsDefault` with full ancestor verification. -/
def optsStrict : WriteOptions := { optsDefault with VerifyAll := true }

/-- Ancestor verification requested while mount confinement is
explicitly switched off by the caller. -/
def optsStrictNoConfine : WriteOptions :=
  { optsDefault with VerifyAll := true, NoCrossDevice := false }

/-- A kernel where everything succeeds: `openat2` yields directory
fd 3, `O_TMPFILE` yields fd 4, exclusive create yields fd 5, every
directory is root-owned with mode `0755`, and every raw write accepts
the full buffer. -/
def envOK : Env :=
  { openat2 := fun _ _ => .ok 3,
    openNofollow := fun _ => .ok 3,
    fstat := fun _ => .ok { uid := 0, mode := 0o755 },
    tmpfileOpen := .ok 4,
    exclOpen := .ok 5,
    rawWrite := fun _ len => .ok len,
    fsyncErr := none, fchownErr := none, linkatErr := none,
    renameatErr := none, closeTmpErr := none, dirSyncErr := none }

/-- `envOK` except that the filesystem does not support `O_TMPFILE`
(`EOPNOTSUPP`), so the dispatcher falls back. -/
def envFB : Env := { envOK with tmpfileOpen := .error .EOPNOTSUPP }

/-- `envOK` except that each raw `write(2)` accepts at most two bytes
(a short write, as with payloads beyond the kernel's per-call maximum
or a nearly full disk). -/
def envShort : Env := { envOK with rawWrite := fun _ len => .ok (min 2 len) }

/-- `envShort` without `O_TMPFILE` support: the fallback strategy under
short writes. -/
def envShortFB : Env :=
  { envOK with tmpfileOpen := .error .EOPNOTSUPP,
               rawWrite := fun _ len => .ok (min 2 len) }

/-- `envOK` except that `fstat` fails with `EINVAL`: the ancestor
verifier's stat step fails with an errno in the fallback set. -/
def envStatFail : Env := { envOK with fstat := fun _ => .error .EINVAL }

/-- `envOK` except that every directory is owned by uid 1000 and is
world-writable without the sticky bit. -/
def envBadParent : Env :=
  { envOK with fstat := fun _ => .ok { uid := 1000, mode := 0o777 } }

/-- A kernel without `openat2` (`ENOSYS`); the weaker `O_NOFOLLOW`
open succeeds with fd 6. -/
def envEnosys : Env :=
  { envOK with openat2 := fun _ _ => .error .ENOSYS,
               openNofollow := fun _ => .ok 6 }

/-- A kernel whose `openat2` fails with `EPERM` (not `ENOSYS`); the
`O_NOFOLLOW` oracle is set to succeed so that reaching it would be
visible. -/
def envEpermOpen : Env :=
  { envOK with openat2 := fun _ _ => .error .EPERM,
               openNofollow := fun _ => .ok 6 }

/-- A kernel supporting `openat2` where the path crosses a mount
point: resolution fails with `EXDEV` exactly when `RESOLVE_NO_XDEV`
is in the resolve flags, and succeeds otherwise. -/
def envXdev : Env :=
  { envOK with openat2 := fun _ fl =>
      if fl &&& RESOLVE_NO_XDEV = 0 then .ok 3 else .error .EXDEV }

end Secureio

namespace Secureio

/-! ## Sanity checks of the model on concrete inputs -/

example : pathDir "/d/f" = "/d" := by decide
example : pathDir "/a/b/c" = "/a/b" := by decide
example : pathDir "file.txt" = "." := by decide
example : pathDir "." = "." := by decide
example : pathDir "/a" = "/" := by decide
example : pathDir "/" = "/" := by decide
example : pathBase "/d/f" = "f" := by decide
example : pathBase "file.txt" = "file.txt" := by decide
example : pathBase "/" = "/" := by decide
example : pathClean "/a/../b//c/./" = "/b/c" := by decide
example : pathClean "../a" = "../a" := by decide

example : openDirSecure envEnosys "/d" true = .ok 6 := by decide
example : openDirSecure envEpermOpen "/d" true = .error (.errno .EPERM) := by decide
example : openDirSecure envOK "/d" false = .ok 3 := by decide
example : openDirSecure envXdev "/d" true = .error (.errno .EXDEV) := by decide
example : openDirSecure envXdev "/d" false = .ok 3 := by decide

example : secureAtomicWriteInternal envOK 9 "/d/f" [1, 2] optsDefault fs0 =
    some (none, { files := [("f", [1, 2])], anon := [1, 2], attempts := 1,
                  closes := [3, 4, 3] }) := by decide

example : secureAtomicWriteInternal envFB 9 "/d/f" [1, 2] optsDefault fs0 =
    some (none, { files := [("f", [1, 2])], anon := [], attempts := 1,
                  closes := [3, 5, 3, 5, 3] }) := by decide

example : verifyDirectorySecure envBadParent 9 "/d" true fs0 =
    some (some (.msg "directory /d not owned by root (uid=1000)"), closeFd 3 fs0) := by
  decide

example : verifyDirectorySecure envOK 9 "/d" true fs0 = some (none, closeFd 3 (closeFd 3 fs0)) := by
  decide

/-! ## Helper lemmas -/

theorem errorsAsErrno_eq_some_iff (err : GoError) (er : Errno) :
    errorsAsErrno err = some er ↔ WrapsErrno err er := by
  induction err with
  | errno e =>
    simp only [errorsAsErrno, Option.some.injEq]
    constructor
    · rintro rfl; exact .base e
    · intro h; cases h; rfl
  | wrap m inner ih =>
    simp only [errorsAsErrno]
    rw [ih]
    constructor
    · intro h; exact .step m inner er h
    · intro h; cases h with | step _ _ _ h2 => exact h2
  | msg s =>
    simp only [errorsAsErrno]
    constructor
    · intro h; cases h
    · intro h; cases h

theorem fallbackNeeded_true_iff (err : GoError) :
    fallbackNeeded (some err) = true ↔
      ∃ er, WrapsErrno err er ∧
        (er = .EOPNOTSUPP ∨ er = .EINVAL ∨ er = .ENOTDIR ∨ er = .EPERM) := by
  have hfb : fallbackNeeded (some err) =
      (match errorsAsErrno err with
       | some e => e == .EOPNOTSUPP || e == .EINVAL || e == .ENOTDIR || e == .EPERM
       | none => false) := rfl
  rw [hfb]
  cases h : errorsAsErrno err with
  | none =>
    simp only [Bool.false_eq_true, false_iff]
    rintro ⟨er, hw, _⟩
    rw [← errorsAsErrno_eq_some_iff, h] at hw
    cases hw
  | some e =>
    have he := (errorsAsErrno_eq_some_iff err e).mp h
    simp only [Bool.or_eq_true, beq_iff_eq]
    constructor
    · intro hc
      exact ⟨e, he, by tauto⟩
    · rintro ⟨er, hw, hor⟩
      rw [← errorsAsErrno_eq_some_iff, h, Option.some.injEq] at hw
      subst hw
      tauto

/-- With `VerifyAll = false` the whole dispatcher never consults the
`fstat` oracle: the ownership/mode checks play no part in the call. -/
theorem internal_stat_oracle_irrelevant (env : Env) (f : Nat → Except Errno Stat)
    (fuel : Nat) (path : String) (data : List Nat) (opts : WriteOptions) (fs : FS)
    (h : opts.VerifyAll = false) :
    secureAtomicWriteInternal { env with fstat := f } fuel path data opts fs =
      secureAtomicWriteInternal env fuel path data opts fs := by
  simp only [secureAtomicWriteInternal, ultraParanoidWrite, paranoidAtomicWrite, h,
    Bool.false_eq_true, if_false]
  rfl

/-- When `verifyDirectorySecure` is invoked with `verifyAll = false`
it examines only its starting directory: the result does not depend on
how much fuel remains beyond the first iteration. -/
theorem verify_single_check_fuel_irrelevant (env : Env) (fuel1 fuel2 : Nat)
    (p : String) (fs : FS) :
    verifyDirectorySecure env (fuel1 + 1) p false fs =
      verifyDirectorySecure env (fuel2 + 1) p false fs := by
  simp only [verifyDirectorySecure, true_or, if_true]

/-- The ancestor walk started at `"."` exhausts any amount of fuel in
the all-good environment: the Go loop never terminates there. -/
theorem verify_dot_diverges : ∀ (fuel : Nat) (fs : FS),
    verifyDirectorySecure envOK fuel "." true fs = none := by
  intro fuel
  induction fuel with
  | zero => intro fs; rfl
  | succ n ih =>
    intro fs
    have step : verifyDirectorySecure envOK (n + 1) "." true fs =
        verifyDirectorySecure envOK n "." true (closeFd 3 fs) := rfl
    rw [step]
    exact ih (closeFd 3 fs)

/-- The verifier's result is unchanged when `openat2` is modified
arbitrarily at resolve-flag arguments lacking `RESOLVE_NO_XDEV`: the
walk only ever opens directories with mount confinement switched on. -/
theorem verify_xdev_invariant : ∀ (env : Env) (g : String → Nat → Except Errno Nat)
    fuel p vAll fs,
    verifyDirectorySecure
      { env with openat2 := fun q fl =>
          if fl &&& RESOLVE_NO_XDEV = 0 then g q fl else env.openat2 q fl }
      fuel p vAll fs
    = verifyDirectorySecure env fuel p vAll fs := by
  intro env g fuel
  induction fuel with
  | zero => intro p vAll fs; rfl
  | succ n ih =>
    intro p vAll fs
    have hcond : ¬(resolveFlags true &&& RESOLVE_NO_XDEV = 0) := by decide
    have hopen : openDirSecure
        { env with openat2 := fun q fl =>
            if fl &&& RESOLVE_NO_XDEV = 0 then g q fl else env.openat2 q fl } p true
        = openDirSecure env p true := by
      simp only [openDirSecure]
      rw [if_neg hcond]
    simp only [verifyDirectorySecure, hopen]
    cases openDirSecure env p true with
    | error err => rfl
    | ok fd =>
      dsimp only
      cases env.fstat fd with
      | error e => rfl
      | ok st =>
        dsimp only
        by_cases hu : st.uid ≠ 0
        · simp [hu]
        · by_cases hw : st.mode &&& S_IWOTH ≠ 0 ∧ st.mode &&& S_ISVTX = 0
          · simp [hu, hw]
          · by_cases hv : vAll = false ∨ p = "/"
            · simp [hu, hw, hv]
            · simp [hu, hw, hv, ih]

/-- A strict call with `NoCrossDevice = false` still fails on a
mount-crossing parent when `openat2` is available, and the failure is
returned unchanged (no fallback). -/
theorem strict_write_fails_on_xdev : ∀ (env : Env) fuel path data opts fs,
    opts.VerifyAll = true → opts.NoCrossDevice = false →
    env.openat2 (pathDir path)
        (RESOLVE_NO_SYMLINKS ||| RESOLVE_NO_MAGICLINKS ||| RESOLVE_NO_XDEV) =
      .error .EXDEV →
    secureAtomicWriteInternal env (fuel + 1) path data opts fs =
      some (some (.wrap ("open directory " ++ pathDir path) (.errno .EXDEV)), fs) := by
  intro env fuel path data opts fs hv hx hex
  have hopen : openDirSecure env (pathDir path) true = .error (.errno .EXDEV) := by
    have hrf : resolveFlags true =
        RESOLVE_NO_SYMLINKS ||| RESOLVE_NO_MAGICLINKS ||| RESOLVE_NO_XDEV := rfl
    simp only [openDirSecure, hrf, hex]
    rfl
  have hver : verifyDirectorySecure env (fuel + 1) (pathDir path) true fs =
      some (some (.wrap ("open directory " ++ pathDir path) (.errno .EXDEV)), fs) := by
    simp only [verifyDirectorySecure, hopen]
  simp only [secureAtomicWriteInternal, ultraParanoidWrite, hv, if_true, hver]
  rfl

/-- Every exit path of the anonymous-temp strategy closes the
directory descriptor, and the temp descriptor when one was opened. -/
theorem ultra_closes (env : Env) (fuel : Nat) (path : String) (data : List Nat)
    (opts : WriteOptions) (fs fsv : FS) (res : Option GoError) (fs2 : FS) (dirFd : Nat)
    (hv : (if opts.VerifyAll then verifyDirectorySecure env fuel (pathDir path) true fs
           else some (none, fs)) = some (none, fsv))
    (ho : openDirSecure env (pathDir path) opts.NoCrossDevice = .ok dirFd)
    (hr : ultraParanoidWrite env fuel path data opts fs = some (res, fs2)) :
    dirFd ∈ fs2.closes ∧ ∀ tmpFd, env.tmpfileOpen = .ok tmpFd → tmpFd ∈ fs2.closes := by
  simp only [ultraParanoidWrite] at hr
  rw [hv] at hr
  dsimp only at hr
  rw [ho] at hr
  dsimp only at hr
  repeat' split at hr
  all_goals
    simp only [Option.some.injEq, Prod.mk.injEq] at hr
  all_goals
    obtain ⟨h1, h2⟩ := hr
  all_goals
    subst h2
  all_goals
    refine ⟨by simp [closeFd], ?_⟩
  all_goals
    intro t ht
  all_goals
    simp_all [closeFd]

/-- Every exit path of the named-temp strategy closes the directory
descriptor, and the temp descriptor when one was opened. -/
theorem paranoid_closes (env : Env) (fuel : Nat) (path : String) (data : List Nat)
    (opts : WriteOptions) (fs fsv : FS) (res : Option GoError) (fs2 : FS) (dirFd : Nat)
    (hv : (if opts.VerifyAll then verifyDirectorySecure env fuel (pathDir path) true fs
           else some (none, fs)) = some (none, fsv))
    (ho : openDirSecure env (pathDir path) opts.NoCrossDevice = .ok dirFd)
    (hr : paranoidAtomicWrite env fuel path data opts fs = some (res, fs2)) :
    dirFd ∈ fs2.closes ∧
      ∀ tmpFd, (fsLookup fsv.files ("." ++ pathBase path ++ ".tmp")).isSome = false →
        env.exclOpen = .ok tmpFd → tmpFd ∈ fs2.closes := by
  simp only [paranoidAtomicWrite] at hr
  rw [hv] at hr
  dsimp only at hr
  rw [ho] at hr
  dsimp only at hr
  repeat' split at hr
  all_goals
    simp only [Option.some.injEq, Prod.mk.injEq] at hr
  all_goals
    obtain ⟨h1, h2⟩ := hr
  all_goals
    subst h2
  all_goals
    refine ⟨by simp [closeFd, deferTmpCleanup], ?_⟩
  all_goals
    intro t hl ht
  all_goals
    simp_all [closeFd, deferTmpCleanup]

end Secureio

namespace Secureio

/-! ## The claims -/

/-- C1: the dispatcher runs the anonymous-temp strategy first and
retries the whole operation with the named-temp strategy exactly when
the first attempt's error is (or wraps) one of EOPNOTSUPP, EINVAL,
ENOTDIR, EPERM; every other outcome (success or other error) is
returned unchanged, and the decision is taken once, on the whole
first attempt's result. -/
theorem c1_dispatcher_fallback_policy :
    (∀ env fuel path data opts fs,
       secureAtomicWriteInternal env fuel path data opts fs =
         match ultraParanoidWrite env fuel path data opts fs with
         | none => none
         | some (res, fs1) =>
           if fallbackNeeded res then paranoidAtomicWrite env fuel path data opts fs1
           else some (res, fs1))
    ∧ fallbackNeeded none = false
    ∧ (∀ err : GoError,
         fallbackNeeded (some err) = true ↔
           ∃ er, WrapsErrno err er ∧
             (er = .EOPNOTSUPP ∨ er = .EINVAL ∨ er = .ENOTDIR ∨ er = .EPERM)) :=
  ⟨fun _ _ _ _ _ _ => rfl, rfl, fallbackNeeded_true_iff⟩

/-- C2 counterexample: with `VerifyAll = false` a write into a parent
directory that is not root-owned and is world-writable without the
sticky bit succeeds with no error, although the verifier itself,
invoked on that directory, would reject it: the immediate parent is
not verified at all. -/
theorem c2_counterexample_unverified_parent :
    secureAtomicWriteInternal envBadParent 9 "/d/f" [10] optsDefault fs0 =
      some (none, { files := [("f", [10])], anon := [10], attempts := 1, closes := [3, 4, 3] })
    ∧ envBadParent.fstat 3 = .ok { uid := 1000, mode := 0o777 }
    ∧ optsDefault.VerifyAll = false
    ∧ verifyDirectorySecure envBadParent 1 "/d" false fs0 =
        some (some (.msg "directory /d not owned by root (uid=1000)"), closeFd 3 fs0) := by
  decide

/-- C2 amended: when `VerifyAll` is false no directory verification
happens at all — the call's outcome is independent of the `fstat`
oracle, so no root-ownership or world-writability check is made on the
immediate parent; and when `verifyDirectorySecure` itself is invoked
with `verifyAll = false` it stops after its first (immediate) check,
independent of remaining fuel. -/
theorem c2_amended_no_parent_verification :
    (∀ (env : Env) (f : Nat → Except Errno Stat) fuel path data opts fs,
       opts.VerifyAll = false →
       secureAtomicWriteInternal { env with fstat := f } fuel path data opts fs =
         secureAtomicWriteInternal env fuel path data opts fs)
    ∧ (∀ (env : Env) fuel1 fuel2 p fs,
       verifyDirectorySecure env (fuel1 + 1) p false fs =
         verifyDirectorySecure env (fuel2 + 1) p false fs) :=
  ⟨internal_stat_oracle_irrelevant, verify_single_check_fuel_irrelevant⟩

/-- C3 counterexample: with a stray leftover temp file `.f.tmp`
already present and the fallback strategy forced (`O_TMPFILE`
unsupported), the write call fails with an error wrapping `EEXIST`
instead of succeeding; the stray file is left in place and the target
is never created. -/
theorem c3_counterexample_stray_temp_fallback_fails :
    secureAtomicWriteInternal envFB 9 "/d/f" [10, 20, 30, 40] optsDefault fsStray =
      some (some (.wrap "openat temp file" (.errno .EEXIST)), { files := [(".f.tmp", [9, 9])], anon := [], attempts := 0, closes := [3, 3] }) := by
  decide

/-- C3 amended: with a stray temp file at the deterministic fallback
name, a write that stays on the primary (anonymous-temp) strategy
succeeds with the correct final content but leaves the stray file
untouched; a write that takes the fallback strategy fails with
`EEXIST` from the exclusive create, leaving target and stray file
unchanged. -/
theorem c3_amended_stray_temp_behaviour :
    (secureAtomicWriteInternal envOK 9 "/d/f" [10, 20, 30, 40] optsDefault fsStray =
      some (none, { files := [(".f.tmp", [9, 9]), ("f", [10, 20, 30, 40])], anon := [10, 20, 30, 40], attempts := 1, closes := [3, 4, 3] }))
    ∧ (secureAtomicWriteInternal envFB 9 "/d/f" [10, 20, 30, 40] optsDefault fsStray =
      some (some (.wrap "openat temp file" (.errno .EEXIST)), { files := [(".f.tmp", [9, 9])], anon := [], attempts := 0, closes := [3, 3] })) := by
  decide

/-- C4: under a kernel that accepts only two bytes per raw `write(2)`,
the anonymous-temp strategy returns success yet publishes only the
prefix `[10, 20]` of the four-byte payload (the source discards
`unix.Write`'s byte count and never loops), while the named-temp
strategy, which writes through `os.File`, loops and publishes the full
payload. -/
theorem c4_anonymous_strategy_ignores_short_write :
    (secureAtomicWriteInternal envShort 9 "/d/f" [10, 20, 30, 40] optsDefault fs0 =
      some (none, { files := [("f", [10, 20])], anon := [10, 20], attempts := 1, closes := [3, 4, 3] }))
    ∧ (secureAtomicWriteInternal envShortFB 9 "/d/f" [10, 20, 30, 40] optsDefault fs0 =
      some (none, { files := [("f", [10, 20, 30, 40])], anon := [], attempts := 2, closes := [3, 5, 3, 5, 3] }))
    ∧ ([10, 20] : List Nat) ≠ [10, 20, 30, 40] := by
  decide

/-- C5 counterexample: a verifier failure that wraps `EINVAL` (its
`fstat` step failing) is classified by `fallbackNeeded` as a fallback
trigger, and the dispatcher retries the whole operation with the
named-temp strategy — visible in the close trace `[3, 3]`, which
records the verifier running twice. -/
theorem c5_counterexample_verifier_failure_triggers_fallback :
    ultraParanoidWrite envStatFail 9 "/d/f" [10] optsStrict fs0 =
      some (some (.wrap "fstat directory /d" (.errno .EINVAL)), closeFd 3 fs0)
    ∧ fallbackNeeded (some (.wrap "fstat directory /d" (.errno .EINVAL))) = true
    ∧ secureAtomicWriteInternal envStatFail 9 "/d/f" [10] optsStrict fs0 =
        paranoidAtomicWrite envStatFail 9 "/d/f" [10] optsStrict (closeFd 3 fs0)
    ∧ secureAtomicWriteInternal envStatFail 9 "/d/f" [10] optsStrict fs0 =
        some (some (.wrap "fstat directory /d" (.errno .EINVAL)),
          closeFd 3 (closeFd 3 fs0)) := by
  decide

/-- C5 amended: the dispatcher classifies a verifier failure by the
errno it wraps, not by its provenance: a verifier error triggers the
named-temp retry exactly when it wraps one of the four fallback
errnos; the verifier's message-only rejections (not root-owned,
world-writable without sticky bit) wrap no errno and so never trigger
the fallback. -/
theorem c5_amended_fallback_on_verifier_errno :
    (∀ env fuel p vAll fs err fs2,
       verifyDirectorySecure env fuel p vAll fs = some (some err, fs2) →
       (fallbackNeeded (some err) = true ↔
         ∃ er, WrapsErrno err er ∧
           (er = .EOPNOTSUPP ∨ er = .EINVAL ∨ er = .ENOTDIR ∨ er = .EPERM)))
    ∧ (∀ s, fallbackNeeded (some (.msg s)) = false) :=
  ⟨fun _ _ _ _ _ err _ _ => fallbackNeeded_true_iff err, fun _ => rfl⟩

/-- C6: the ancestor walk does not terminate for relative paths: from
the starting directory `"."` (the parent of any bare relative file
name) the textual parent computation is the fixed point
`Dir(".") = "."`, never `"/"`, so with all checks passing the loop
exhausts every fuel bound, and so does the public strict entry point
called on `"file.txt"`. -/
theorem c6_relative_walk_never_reaches_root :
    (∀ fuel fs, verifyDirectorySecure envOK fuel "." true fs = none)
    ∧ (∀ fuel fs data perm,
        SecureAtomicWriteRootStrict envOK fuel "file.txt" data perm fs = none)
    ∧ pathDir "." = "." ∧ ("." : String) ≠ "/" := by
  refine ⟨verify_dot_diverges, ?_, by decide, by decide⟩
  intro fuel fs data perm
  have h := verify_dot_diverges fuel fs
  simp only [SecureAtomicWriteRootStrict, secureAtomicWriteInternal, ultraParanoidWrite]
  rw [show pathDir "file.txt" = "." from rfl]
  rw [h]
  rfl

/-- C7: the directory opener tries `openat2` first; when it succeeds
its descriptor is returned; when it fails with `ENOSYS` (and only
then) the `O_NOFOLLOW` fallback is used; any other `openat2` error is
returned to the caller without consulting the fallback oracle at
all. -/
theorem c7_opener_fallback_iff_enosys :
    (∀ (env : Env) path b fd, env.openat2 path (resolveFlags b) = .ok fd →
       openDirSecure env path b = .ok fd)
    ∧ (∀ (env : Env) path b, env.openat2 path (resolveFlags b) = .error .ENOSYS →
       openDirSecure env path b =
         (match env.openNofollow path with
          | .ok fd => .ok fd
          | .error e2 => .error (.errno e2)))
    ∧ (∀ (env : Env) (g : String → Except Errno Nat) path b e,
       env.openat2 path (resolveFlags b) = .error e → e ≠ .ENOSYS →
       openDirSecure { env with openNofollow := g } path b = .error (.errno e)) := by
  refine ⟨?_, ?_, ?_⟩
  · intro env path b fd h
    simp only [openDirSecure, h]
  · intro env path b h
    simp only [openDirSecure, h]
    rfl
  · intro env g path b e h he
    have hp : ({ env with openNofollow := g } : Env).openat2 = env.openat2 := rfl
    simp only [openDirSecure, hp, h, errorsIsErrno, errorsAsErrno]
    simp [he]

/-- C8: `SecureAtomicWriteRoot` behaves identically to
`SecureAtomicWrite` (both build the same fully-populated options —
sync on, ancestor verification off, mount confinement on, ownership
sentinels — and call the same internal write), and
`SecureAtomicWriteRootStrict` differs from them only by the
`VerifyAll` flag. -/
theorem c8_privileged_entry_points_equivalence :
    (∀ env fuel path data perm fs,
       SecureAtomicWriteRoot env fuel path data perm fs =
         SecureAtomicWrite env fuel path data perm fs)
    ∧ (∀ env fuel path data perm fs,
       SecureAtomicWriteRoot env fuel path data perm fs =
         secureAtomicWriteInternal env fuel path data
           { Perm := perm, UID := -1, GID := -1, Sync := true, VerifyAll := false,
             NoCrossDevice := true } fs)
    ∧ (∀ env fuel path data perm fs,
       SecureAtomicWriteRootStrict env fuel path data perm fs =
         secureAtomicWriteInternal env fuel path data
           { Perm := perm, UID := -1, GID := -1, Sync := true, VerifyAll := true,
             NoCrossDevice := true } fs)
    ∧ (∀ perm : Nat,
       ({ Perm := perm, UID := -1, GID := -1, Sync := true, VerifyAll := true,
          NoCrossDevice := true } : WriteOptions) =
         { ({ Perm := perm, UID := -1, GID := -1, Sync := true, VerifyAll := false,
              NoCrossDevice := true } : WriteOptions) with VerifyAll := true }) :=
  ⟨fun _ _ _ _ _ _ => rfl, fun _ _ _ _ _ _ => rfl, fun _ _ _ _ _ _ => rfl, fun _ => rfl⟩

/-- C9: ancestor verification opens every directory it examines with
`RESOLVE_NO_XDEV` hardcoded on — its result is invariant under
arbitrary changes to `openat2`'s behaviour at flag sets lacking that
bit — and a call with `VerifyAll = true` and `NoCrossDevice = false`
still fails, with the error returned unchanged, when the verified
parent crosses a mount point under an available `openat2`. -/
theorem c9_verification_hardcodes_mount_confinement :
    (∀ (env : Env) (g : String → Nat → Except Errno Nat) fuel p vAll fs,
       verifyDirectorySecure
         { env with openat2 := fun q fl =>
             if fl &&& RESOLVE_NO_XDEV = 0 then g q fl else env.openat2 q fl }
         fuel p vAll fs
       = verifyDirectorySecure env fuel p vAll fs)
    ∧ (∀ (env : Env) fuel path data opts fs,
       opts.VerifyAll = true → opts.NoCrossDevice = false →
       env.openat2 (pathDir path)
           (RESOLVE_NO_SYMLINKS ||| RESOLVE_NO_MAGICLINKS ||| RESOLVE_NO_XDEV) =
         .error .EXDEV →
       secureAtomicWriteInternal env (fuel + 1) path data opts fs =
         some (some (.wrap ("open directory " ++ pathDir path) (.errno .EXDEV)), fs)) :=
  ⟨verify_xdev_invariant, strict_write_fails_on_xdev⟩

/-- C10 counterexample: on the primary strategy's success path with
`Sync` enabled the directory descriptor 3 appears twice in the close
trace `[3, 4, 3]` — once from the deferred `dirFile.Close()` of the
`os.File` wrapper and once from the deferred raw `unix.Close(dirFd)` —
so it is not closed exactly once. -/
theorem c10_counterexample_double_close :
    secureAtomicWriteInternal envOK 9 "/d/f" [10, 20, 30, 40] optsDefault fs0 =
      some (none, { files := [("f", [10, 20, 30, 40])], anon := [10, 20, 30, 40], attempts := 1, closes := [3, 4, 3] })
    ∧ openDirSecure envOK "/d" true = .ok 3
    ∧ ([3, 4, 3] : List Nat).count 3 = 2 := by
  decide

/-- C10 amended: every descriptor actually opened by a strategy is
closed at least once on every exit path (no leak), but not exactly
once: with `Sync` on, the success path closes the directory descriptor
twice in both strategies, and the fallback strategy also closes its
temp descriptor twice (explicit `Close` plus deferred raw close) —
trace `[3, 5, 3, 5, 3]` on the fallback success path. -/
theorem c10_amended_close_discipline :
    (∀ (env : Env) fuel path data opts fs fsv res fs2 dirFd,
       (if opts.VerifyAll then verifyDirectorySecure env fuel (pathDir path) true fs
        else some (none, fs)) = some (none, fsv) →
       openDirSecure env (pathDir path) opts.NoCrossDevice = .ok dirFd →
       ultraParanoidWrite env fuel path data opts fs = some (res, fs2) →
       dirFd ∈ fs2.closes ∧ ∀ tmpFd, env.tmpfileOpen = .ok tmpFd → tmpFd ∈ fs2.closes)
    ∧ (∀ (env : Env) fuel path data opts fs fsv res fs2 dirFd,
       (if opts.VerifyAll then verifyDirectorySecure env fuel (pathDir path) true fs
        else some (none, fs)) = some (none, fsv) →
       openDirSecure env (pathDir path) opts.NoCrossDevice = .ok dirFd →
       paranoidAtomicWrite env fuel path data opts fs = some (res, fs2) →
       dirFd ∈ fs2.closes ∧
         ∀ tmpFd, (fsLookup fsv.files ("." ++ pathBase path ++ ".tmp")).isSome = false →
           env.exclOpen = .ok tmpFd → tmpFd ∈ fs2.closes)
    ∧ (secureAtomicWriteInternal envFB 9 "/d/f" [10, 20, 30, 40] optsDefault fs0 =
        some (none, { files := [("f", [10, 20, 30, 40])], anon := [], attempts := 1, closes := [3, 5, 3, 5, 3] }))
    ∧ ([3, 5, 3, 5, 3] : List Nat).count 5 = 2 :=
  ⟨ultra_closes, paranoid_closes, by decide, by decide⟩

end Secureio
